import Mathlib

/-!
Shallow embedding of the proposal-builder orchestration core
(`models/core_models.py`, `agents/simple_agents.py`,
`core/simple_orchestrator.py`, `core/orchestrator.py`).

Python floats are modelled as rationals (`ℚ`); Python `Optional` values as
`Option`; Python exceptions as `Except String` results where a code path can
raise.  String operations mirror the Python string methods used by the source
(`str.strip`, `str.split`, `str.lower`, `str.upper`, substring membership);
they are implemented by structural recursion over `List Char` so that every
definition evaluates on concrete inputs.
-/

namespace ProposalBuilder

namespace PyStr

/-- Characters stripped by Python `str.strip()` (the forms occurring in the
inputs this development manipulates). -/
def isSpace (c : Char) : Bool :=
  c = ' ' || c = '\t' || c = '\n' || c = '\r'

/-- Python `str.strip()`. -/
def strip (cs : List Char) : List Char :=
  ((cs.dropWhile isSpace).reverse.dropWhile isSpace).reverse

/-- Python `str.lower()` (ASCII). -/
def lower (cs : List Char) : List Char := cs.map Char.toLower

/-- Python `str.upper()` (ASCII). -/
def upper (cs : List Char) : List Char := cs.map Char.toUpper

/-- Does `hay` start with `needle`? -/
def startsWith : List Char → List Char → Bool
  | [], _ => true
  | _ :: _, [] => false
  | a :: as, b :: bs => a = b && startsWith as bs

/-- Python substring membership `needle in hay`. -/
def containsSub (needle : List Char) : List Char → Bool
  | [] => needle.isEmpty
  | c :: rest => startsWith needle (c :: rest) || containsSub needle rest

/-- Python `str.split(sep)` for a single-character separator. -/
def splitOnChar (sep : Char) : List Char → List (List Char)
  | [] => [[]]
  | c :: cs =>
    match splitOnChar sep cs with
    | [] => [[]]
    | g :: gs => if c = sep then [] :: g :: gs else (c :: g) :: gs

/-- Index of the first occurrence of `c` (Python `str.find`, `none` for -1). -/
def findChar (c : Char) : List Char → Option ℕ
  | [] => none
  | d :: ds => if d = c then some 0 else (findChar c ds).map (· + 1)

/-- Index of the last occurrence of `c` (Python `str.rfind`, `none` for -1). -/
def rfindChar (c : Char) (cs : List Char) : Option ℕ :=
  (findChar c cs.reverse).map (fun i => cs.length - 1 - i)

/-- Value of a digit string (`none` if empty or a non-digit occurs). -/
def digitsVal : List Char → Option ℕ
  | [] => none
  | [c] => if c.isDigit then some (c.toNat - 48) else none
  | c :: cs =>
    if c.isDigit then (digitsVal cs).map (fun lo => (c.toNat - 48) * 10 ^ cs.length + lo)
    else none

/-- String-level part of Python `float(s)`: strip, read an optional sign, and
split the remaining digits at an optional decimal point, producing
`(negative?, integer value, fraction value, fraction length)`. -/
def decParse (s : List Char) : Option (Bool × ℕ × ℕ × ℕ) :=
  let t := strip s
  let neg : Bool := t.head? = some '-'
  let body := if t.head? = some '-' ∨ t.head? = some '+' then t.tail else t
  match splitOnChar '.' body with
  | [intPart] => (digitsVal intPart).map (fun n => (neg, n, 0, 0))
  | [intPart, fracPart] =>
    if intPart.isEmpty ∧ fracPart.isEmpty then none
    else if fracPart.isEmpty then (digitsVal intPart).map (fun n => (neg, n, 0, 0))
    else if intPart.isEmpty then
      (digitsVal fracPart).map (fun f => (neg, 0, f, fracPart.length))
    else
      (digitsVal intPart).bind (fun n =>
        (digitsVal fracPart).map (fun f => (neg, n, f, fracPart.length)))
  | _ => none

/-- Python `float(s)` on plain decimal forms (`"8"`, `" 8.5 "`, `"-3."`,
`".25"`).  Exponent and `inf`/`nan` forms are not modelled; on every other
malformed input it is `none`, mirroring the `ValueError` raised by `float`. -/
def pyFloat (s : List Char) : Option ℚ :=
  (decParse s).map (fun p =>
    (if p.1 then (-1 : ℚ) else 1) * ((p.2.1 : ℚ) + (p.2.2.1 : ℚ) / 10 ^ p.2.2.2))

end PyStr

/-- `Priority` enum from `models/core_models.py`. -/
inductive Priority where
  | mandatory
  | optional
  | nice_to_have
deriving DecidableEq, Repr

/-- `TaskPlan` model from `models/core_models.py`. -/
structure TaskPlan where
  task : String
  description : String
  role : String
  hours : ℚ
  rate : ℚ
  priority : Priority
  dependencies : List String := []
deriving DecidableEq, Repr

/-- `TaskPlan.cost` property: `hours * rate`. -/
def TaskPlan.cost (t : TaskPlan) : ℚ := t.hours * t.rate

/-- `ExecutionPlan` model from `models/core_models.py`. -/
structure ExecutionPlan where
  tasks : List TaskPlan
  total_hours : ℚ
  total_cost : ℚ
  mandatory_cost : ℚ
  optional_cost : ℚ
  notes : List String := []
deriving DecidableEq, Repr

/-- `ExecutionPlan.calculate_totals`: recompute the four aggregates from the
task list (the Python method mutates `self`; here it returns the updated
record). -/
def ExecutionPlan.calculate_totals (p : ExecutionPlan) : ExecutionPlan :=
  let total_hours := (p.tasks.map (fun t => t.hours)).sum
  let total_cost := (p.tasks.map TaskPlan.cost).sum
  let mandatory_cost :=
    ((p.tasks.filter (fun t => t.priority = Priority.mandatory)).map TaskPlan.cost).sum
  { p with
    total_hours := total_hours
    total_cost := total_cost
    mandatory_cost := mandatory_cost
    optional_cost := total_cost - mandatory_cost }

namespace Costing

/-- The `data` dictionary built by `CostingAgent.validate_and_optimize_costs`
(`agents/simple_agents.py`). -/
structure CostValidationData where
  within_budget : Bool
  budget_utilization : ℚ
  risk_level : String
  requires_revision : Bool
  total_cost : ℚ
  mandatory_cost : ℚ
  optional_cost : ℚ

/-- The `AgentResponse` returned by `CostingAgent.validate_and_optimize_costs`. -/
structure CostAgentResponse where
  success : Bool
  data : CostValidationData
  feedback : Option String
  requires_revision : Bool
  next_agent : Option String

/-- Python truthiness of the optional `llm_feedback` string. -/
def strTruthy : Option String → Bool
  | none => false
  | some s => !(s = "")

/-- `CostingAgent.validate_and_optimize_costs` in the case where `max_budget`
is a float `b` (including `b = 0`, which is falsy in Python, so every
`if max_budget:` guard is modelled as `b ≠ 0`).  `llm_analysis` is the oracle
for `_get_llm_cost_analysis` (an LLM round-trip; `none` covers both the
not-called and the falsy-result cases).  The numeric interpolation of the
overage f-string is abbreviated to its fixed text. -/
def validate_core (llm_analysis : Option String) (plan : ExecutionPlan)
    (b : ℚ) (error_margin : ℚ) : CostAgentResponse :=
  let within_budget : Bool :=
    if b ≠ 0 then decide (plan.total_cost ≤ b * (1 + error_margin)) else true
  let requires_revision : Bool :=
    decide (b ≠ 0) && !within_budget && decide ((plan.total_cost - b) / b > 3 / 10)
  let feedback0 : Option String :=
    if requires_revision then
      some "Project cost exceeds budget. Consider reducing scope of optional tasks or optimizing task estimates."
    else none
  let llm_feedback : Option String :=
    if b ≠ 0 ∧ plan.total_cost > b * (8 / 10) then llm_analysis else none
  let feedback : Option String :=
    if strTruthy llm_feedback ∧ feedback0 = none then llm_feedback else feedback0
  { success := within_budget
    data :=
      { within_budget := within_budget
        budget_utilization := if b ≠ 0 then plan.total_cost / b * 100 else 0
        risk_level :=
          if !within_budget then "high"
          else if plan.total_cost > b * (9 / 10) then "medium" else "low"
        requires_revision := requires_revision
        total_cost := plan.total_cost
        mandatory_cost := plan.mandatory_cost
        optional_cost := plan.optional_cost }
    feedback := feedback
    requires_revision := requires_revision
    next_agent := some (if requires_revision then "business_translator" else "commercial_writer") }

/-- `CostingAgent.validate_and_optimize_costs` with its `Optional[float]`
`max_budget` argument.  When `max_budget` is `None`, `within_budget` stays
`True` and the response-dict construction evaluates
`plan.total_cost > max_budget * 0.9` in the `risk_level` entry, which raises
`TypeError` (`None * 0.9`); that raise is modelled as an `Except.error`. -/
def validate_and_optimize_costs (llm_analysis : Option String)
    (plan : ExecutionPlan) (max_budget : Option ℚ) (error_margin : ℚ) :
    Except String CostAgentResponse :=
  match max_budget with
  | none => Except.error "TypeError: unsupported operand type(s) for *: NoneType and float"
  | some b => Except.ok (validate_core llm_analysis plan b error_margin)

end Costing

/-- The revision-relevant projection of an `AgentResponse`
(`models/core_models.py`): the `requires_revision` flag and the optional
`feedback` text consumed by the orchestrator loops. -/
structure AgentDecision where
  requires_revision : Bool
  feedback : Option String

namespace SimpleOrchestrator

/-- `SimpleProposalOrchestrator._validate_costs`
(`core/simple_orchestrator.py`): validate the plan; while the response
requires revision and `revision_count < max_revisions`, increment the counter,
ask the translator for a revised plan from the feedback, and recurse on the
*revised* plan; otherwise return the current plan.  The agent round-trips are
oracles indexed by the current revision count (`validate` for
`CostingAgent.validate_and_optimize_costs`, `translate` for
`BusinessTranslatorAgent.create_execution_plan`). -/
def validate_costs (validate : ℕ → ExecutionPlan → AgentDecision)
    (translate : ℕ → Option String → ExecutionPlan)
    (max_revisions : ℕ) : ExecutionPlan → ℕ → ExecutionPlan × ℕ
  | plan, revision_count =>
    if h : (validate revision_count plan).requires_revision = true ∧
        revision_count < max_revisions then
      validate_costs validate translate max_revisions
        (translate revision_count (validate revision_count plan).feedback)
        (revision_count + 1)
    else (plan, revision_count)
termination_by _plan rc => max_revisions - rc
decreasing_by simp_wf; omega

/-- `SimpleProposalOrchestrator._review_proposal`
(`core/simple_orchestrator.py`): review the proposal text; while the response
requires revision and `revision_count < max_revisions`, increment the counter,
ask the writer for a revised text from the feedback, and recurse on the
revised text; otherwise return the accepted text (the source then feeds it to
`_create_final_output`). -/
def review_proposal (review : ℕ → String → AgentDecision)
    (write : ℕ → Option String → String)
    (max_revisions : ℕ) : String → ℕ → String × ℕ
  | text, revision_count =>
    if h : (review revision_count text).requires_revision = true ∧
        revision_count < max_revisions then
      review_proposal review write max_revisions
        (write revision_count (review revision_count text).feedback)
        (revision_count + 1)
    else (text, revision_count)
termination_by _text rc => max_revisions - rc
decreasing_by simp_wf; omega

/-- The revision-counter skeleton of
`SimpleProposalOrchestrator.generate_proposal`: `__init__` sets
`revision_count = 0`; phase 2 (`_validate_costs`) and phase 4
(`_review_proposal`) share that counter.  `write0` is the oracle for phase 3
(`_write_proposal`, which has no loop of its own); the result is the validated
plan, the accepted proposal text, and the final revision count. -/
def generate_proposal_counts (validate : ℕ → ExecutionPlan → AgentDecision)
    (translate : ℕ → Option String → ExecutionPlan)
    (review : ℕ → String → AgentDecision)
    (write : ℕ → Option String → String)
    (max_revisions : ℕ) (initial_plan : ExecutionPlan)
    (write0 : ExecutionPlan → String) : ExecutionPlan × String × ℕ :=
  let v := validate_costs validate translate max_revisions initial_plan 0
  let r := review_proposal review write max_revisions (write0 v.1) v.2
  (v.1, r.1, r.2)

end SimpleOrchestrator

namespace RichOrchestrator

/-- `ProposalOrchestrator._validate_and_optimize_costs`
(`core/orchestrator.py`): validates `context.current_plan`; on a revision
request it increments the counter and obtains `revised_plan` from the
translator, but appends it only to `context.revision_history` — it never
assigns `context.current_plan` — and then recurses, so the recursive call
validates and finally returns the *unchanged* current plan. -/
def validate_and_optimize_costs (validate : ℕ → ExecutionPlan → AgentDecision)
    (translate : ℕ → Option String → ExecutionPlan)
    (max_revisions : ℕ) : ExecutionPlan → ℕ → ExecutionPlan × ℕ
  | current_plan, revision_count =>
    if h : (validate revision_count current_plan).requires_revision = true ∧
        revision_count < max_revisions then
      -- `revised_plan` is recorded in the revision history only:
      let _revised_plan :=
        translate revision_count (validate revision_count current_plan).feedback
      validate_and_optimize_costs validate translate max_revisions
        current_plan (revision_count + 1)
    else (current_plan, revision_count)
termination_by _plan rc => max_revisions - rc
decreasing_by simp_wf; omega

end RichOrchestrator

namespace Translator

/-- The lower-case / hyphen-to-underscore transformation applied to the raw
priority string in `BusinessTranslatorAgent._build_execution_plan`
(`agents/simple_agents.py`): `task_data.get("priority",
"mandatory").lower().replace("-", "_")`. -/
def lower_und (s : String) : String :=
  String.mk ((PyStr.lower s.data).map (fun c => if c = '-' then '_' else c))

/-- Priority normalization inside
`BusinessTranslatorAgent._build_execution_plan`: lower-case, replace `-` with
`_`, and coerce anything outside the three canonical values to
`"mandatory"`. -/
def normalize_priority (s : String) : String :=
  if lower_und s = "mandatory" ∨ lower_und s = "optional" ∨ lower_und s = "nice_to_have"
  then lower_und s else "mandatory"

/-- `Priority(priority_str)` on an already-normalized string. -/
def strToPriority : String → Priority
  | "optional" => Priority.optional
  | "nice_to_have" => Priority.nice_to_have
  | _ => Priority.mandatory

/-- One entry of the parsed `plan_data["tasks"]` list as consumed by
`BusinessTranslatorAgent._build_execution_plan`.  A field is `none` when the
key is missing (for `hours`/`rate`, also when `float(...)` on it would raise);
accessing a required `none` field raises in the source and lands in the
fallback path. -/
structure RawTaskData where
  task : Option String := none
  description : Option String := none
  role : Option String := none
  hours : Option ℚ := none
  rate : Option ℚ := none
  priority : Option String := none
  dependencies : Option (List String) := none

/-- The parsed JSON object handed to `_build_execution_plan`. -/
structure PlanData where
  tasks : Option (List RawTaskData) := none
  notes : Option (List String) := none

/-- Building one `TaskPlan` inside `_build_execution_plan`; `none` when a
required key is missing (`KeyError`/`ValueError` in the source). -/
def build_task (hourly_rate : ℚ) (td : RawTaskData) : Option TaskPlan :=
  match td.task, td.description, td.role, td.hours with
  | some task, some description, some role, some hours =>
    some
      { task := task
        description := description
        role := role
        hours := hours
        rate := td.rate.getD hourly_rate
        priority := strToPriority (normalize_priority (td.priority.getD "mandatory"))
        dependencies := td.dependencies.getD [] }
  | _, _, _, _ => none

/-- `BusinessTranslatorAgent._build_execution_plan`: build every task, then
`calculate_totals`; `none` on any key-access failure. -/
def build_execution_plan (pd : PlanData) (hourly_rate : ℚ) : Option ExecutionPlan :=
  pd.tasks.bind (fun ts =>
    (ts.mapM (build_task hourly_rate)).map (fun tasks =>
      (ExecutionPlan.mk tasks 0 0 0 0 (pd.notes.getD [])).calculate_totals))

/-- `BusinessTranslatorAgent._parse_json_response`: locate the first `{` and
the last `}`; if either is missing, raise (`none` here); otherwise decode the
enclosed substring.  `loads` is the oracle for `json.loads` (`none` = decode
error). -/
def parse_json_response (loads : String → Option PlanData) (response : String) :
    Option PlanData :=
  match PyStr.findChar '{' response.data, PyStr.rfindChar '}' response.data with
  | some start_idx, some last_idx =>
    loads (String.mk ((response.data.drop start_idx).take (last_idx + 1 - start_idx)))
  | _, _ => none

/-- `BusinessTranslatorAgent._create_fallback_plan`: the canned five-task
skeleton at the profile's hourly rate (four mandatory tasks and one
optional deployment task), with totals recomputed. -/
def create_fallback_plan (hourly_rate : ℚ) : ExecutionPlan :=
  (ExecutionPlan.mk
    [ { task := "Project Analysis and Requirements Gathering"
        description := "Analyze project requirements and define scope"
        role := "Data Scientist"
        hours := 8
        rate := hourly_rate
        priority := Priority.mandatory }
    , { task := "Data Collection and Preprocessing"
        description := "Gather, clean, and prepare data for analysis"
        role := "Data Scientist"
        hours := 20
        rate := hourly_rate
        priority := Priority.mandatory }
    , { task := "Model Development and Training"
        description := "Develop and train machine learning models"
        role := "ML Engineer"
        hours := 30
        rate := hourly_rate
        priority := Priority.mandatory }
    , { task := "Results Analysis and Reporting"
        description := "Analyze results and create comprehensive report"
        role := "Data Scientist"
        hours := 12
        rate := hourly_rate
        priority := Priority.mandatory }
    , { task := "Model Deployment and Documentation"
        description := "Deploy model and create technical documentation"
        role := "ML Engineer"
        hours := 10
        rate := hourly_rate
        priority := Priority.optional } ]
    0 0 0 0 ["Auto-generated fallback plan"]).calculate_totals

/-- `BusinessTranslatorAgent.create_execution_plan`: parse the model response
and build the plan; on any failure return the fallback plan (never raise). -/
def create_execution_plan (loads : String → Option PlanData) (response : String)
    (hourly_rate : ℚ) : ExecutionPlan :=
  match (parse_json_response loads response).bind
      (fun pd => build_execution_plan pd hourly_rate) with
  | some plan => plan
  | none => create_fallback_plan hourly_rate

end Translator

namespace Reviewer

/-- The `data` dictionary built by `ReviewerAgent._parse_review_response`
(`agents/simple_agents.py`). -/
structure ReviewData where
  overall_score : ℚ
  would_shortlist : Bool
  strengths : List String
  weaknesses : List String
  estimated_win_probability : ℚ
  requires_revision : Bool

/-- The `AgentResponse` returned by `ReviewerAgent._parse_review_response`
(`data` is `Optional` on the pydantic model). -/
structure ReviewAgentResponse where
  success : Bool
  data : Option ReviewData
  feedback : Option String
  requires_revision : Bool
  next_agent : Option String

/-- `next((line for line in lines if tag in line.upper()), '')`. -/
def find_tag_line (tag : String) (lines : List (List Char)) : List Char :=
  (lines.find? (fun l => PyStr.containsSub tag.data (PyStr.upper l))).getD []

/-- `response.strip().split('\n')`. -/
def review_lines (response : String) : List (List Char) :=
  PyStr.splitOnChar '\n' (PyStr.strip response.data)

/-- The `SCORE:` line (empty list when absent). -/
def score_line (response : String) : List Char :=
  find_tag_line "SCORE:" (review_lines response)

/-- The `WOULD_HIRE:` line (empty list when absent). -/
def would_hire_line (response : String) : List Char :=
  find_tag_line "WOULD_HIRE:" (review_lines response)

/-- Python `s.split(':', 1)[1]`: everything after the first colon. -/
def after_first_colon (l : List Char) : List Char :=
  match PyStr.splitOnChar ':' l with
  | [] => []
  | [_] => []
  | _ :: rest => List.intercalate [':'] rest

/-- The score extraction: default `7.0` when no `SCORE:` line exists;
otherwise `float(score_line.split(':')[1].strip().split('/')[0])`, `none`
when that conversion raises `ValueError`. -/
def score_of (response : String) : Option ℚ :=
  if (score_line response).isEmpty then some 7
  else
    PyStr.pyFloat
      ((PyStr.splitOnChar '/'
        (PyStr.strip ((PyStr.splitOnChar ':' (score_line response)).getD 1 []))).getD 0 [])

/-- `'yes' in would_hire_line.lower() if would_hire_line else score >= 7`. -/
def would_hire_of (response : String) (score : ℚ) : Bool :=
  if !(would_hire_line response).isEmpty then
    PyStr.containsSub "yes".data (PyStr.lower (would_hire_line response))
  else decide (score ≥ 7)

/-- The `except` branch of `_parse_review_response`: a default-accept
response (score 7.5, `success=True`, no revision) so the pipeline cannot
starve on an unparseable review. -/
def default_review_response : ReviewAgentResponse :=
  { success := true
    data := some
      { overall_score := 15 / 2
        would_shortlist := true
        strengths := ["Proposal generated successfully"]
        weaknesses := ["Review parsing failed"]
        estimated_win_probability := 75
        requires_revision := false }
    feedback := some "Review completed with default scoring"
    requires_revision := false
    next_agent := none }

/-- `ReviewerAgent._parse_review_response`.  The only statement in the `try`
block that can raise is the `float(...)` conversion of the score numerator;
`score_of = none` models exactly that raise. -/
def parse_review_response (response : String) : ReviewAgentResponse :=
  let lines := review_lines response
  let strengths_line := find_tag_line "STRENGTHS:" lines
  let weaknesses_line := find_tag_line "WEAKNESSES:" lines
  let feedback_line := find_tag_line "FEEDBACK:" lines
  match score_of response with
  | none => default_review_response
  | some score =>
    let would_hire := would_hire_of response score
    let requires_revision := decide (score < 7) || !would_hire
    { success := decide (score ≥ 7)
      data := some
        { overall_score := score
          would_shortlist := would_hire
          strengths :=
            if !strengths_line.isEmpty
            then [String.mk (PyStr.strip (after_first_colon strengths_line))] else []
          weaknesses :=
            if !weaknesses_line.isEmpty
            then [String.mk (PyStr.strip (after_first_colon weaknesses_line))] else []
          estimated_win_probability := min (score * 10) 90
          requires_revision := requires_revision }
      feedback :=
        if !feedback_line.isEmpty
        then some (String.mk (PyStr.strip (after_first_colon feedback_line))) else none
      requires_revision := requires_revision
      next_agent := if requires_revision then some "commercial_writer" else none }

end Reviewer

namespace SimpleOrchestrator

/-- `ProposalOutput` model from `models/core_models.py`. -/
structure ProposalOutput where
  proposal_text : String
  execution_plan : ExecutionPlan
  reviewer_feedback : List String
  quality_score : ℚ
  estimated_win_probability : ℚ
  recommendations : List String

/-- `SimpleProposalOrchestrator._generate_recommendations`. -/
def generate_recommendations (revision_count : ℕ)
    (review_data : Option Reviewer.ReviewData) : List String :=
  let weaknesses := (review_data.map (fun d => d.weaknesses)).getD []
  let score := (review_data.map (fun d => d.overall_score)).getD (15 / 2)
  let recommendations :=
    ((weaknesses.filter (fun w => !(PyStr.strip w.data).isEmpty)).map
      (fun w => "Improve: " ++ w)) ++
    (if score < 8 then ["Consider enhancing the value proposition and client benefits"] else []) ++
    (if score < 7 then ["Proposal needs significant improvement before submission"] else []) ++
    (if 1 < revision_count then
      ["Proposal went through " ++ Nat.repr revision_count ++
        " revisions - consider refining approach"] else [])
  if recommendations.isEmpty then ["Proposal looks good - ready for submission!"]
  else recommendations

/-- `SimpleProposalOrchestrator._create_final_output`:
`review_data = review_response.data or {}`, then
`quality_score = review_data.get("overall_score", 7.5) / 10.0` and
`estimated_win_probability = review_data.get("estimated_win_probability",
75.0) / 100.0`. -/
def create_final_output (proposal_text : String) (plan : ExecutionPlan)
    (review_response : Reviewer.ReviewAgentResponse) (revision_count : ℕ) :
    ProposalOutput :=
  let rd := review_response.data
  { proposal_text := proposal_text
    execution_plan := plan
    reviewer_feedback :=
      (rd.map (fun d => d.strengths)).getD [] ++ (rd.map (fun d => d.weaknesses)).getD []
    quality_score := ((rd.map (fun d => d.overall_score)).getD (15 / 2)) / 10
    estimated_win_probability :=
      ((rd.map (fun d => d.estimated_win_probability)).getD 75) / 100
    recommendations := generate_recommendations revision_count rd }

end SimpleOrchestrator

namespace Fixtures

/-- A plan whose only relevant observable is its `total_cost` field (the cost
validator reads nothing else). -/
def planOfCost (c : ℚ) : ExecutionPlan := ExecutionPlan.mk [] 0 c 0 0 []

/-- A plan the test validator flags for revision (marked by its notes). -/
def planFlagged : ExecutionPlan := ExecutionPlan.mk [] 0 5000 0 0 ["flagged"]

/-- A plan the test validator accepts. -/
def planGood : ExecutionPlan := ExecutionPlan.mk [] 0 900 0 0 []

/-- Test validator oracle: demands revision exactly for `planFlagged`. -/
def rejectFlagged : ℕ → ExecutionPlan → AgentDecision :=
  fun _ p => ⟨decide (p.notes = ["flagged"]), some "Cost feedback"⟩

/-- Test translator oracle: always returns the acceptable revised plan. -/
def reviseToGood : ℕ → Option String → ExecutionPlan := fun _ _ => planGood

/-- Agent oracle that requests a revision on every call. -/
def alwaysReviseP : ℕ → ExecutionPlan → AgentDecision := fun _ _ => ⟨true, none⟩

/-- Review oracle that requests a revision on every call. -/
def alwaysReviseT : ℕ → String → AgentDecision := fun _ _ => ⟨true, none⟩

end Fixtures

/-! ## Theorems -/

namespace SimpleOrchestrator

theorem validate_costs_count_mono (validate : ℕ → ExecutionPlan → AgentDecision)
    (translate : ℕ → Option String → ExecutionPlan) (max_revisions : ℕ)
    (plan : ExecutionPlan) (rc : ℕ) :
    rc ≤ (validate_costs validate translate max_revisions plan rc).2 := by
  have H : ∀ n plan rc, max_revisions - rc ≤ n →
      rc ≤ (validate_costs validate translate max_revisions plan rc).2 := by
    intro n
    induction n with
    | zero =>
      intro plan rc hn
      rw [validate_costs]
      split
      · rename_i h; exact absurd h.2 (by omega)
      · exact le_rfl
    | succ n ih =>
      intro plan rc hn
      rw [validate_costs]
      split
      · exact le_trans (Nat.le_succ rc) (ih _ _ (by omega))
      · exact le_rfl
  exact H (max_revisions - rc) plan rc le_rfl

theorem validate_costs_count_le (validate : ℕ → ExecutionPlan → AgentDecision)
    (translate : ℕ → Option String → ExecutionPlan) (max_revisions : ℕ)
    (plan : ExecutionPlan) (rc : ℕ) (hrc : rc ≤ max_revisions) :
    (validate_costs validate translate max_revisions plan rc).2 ≤ max_revisions := by
  have H : ∀ n plan rc, max_revisions - rc ≤ n → rc ≤ max_revisions →
      (validate_costs validate translate max_revisions plan rc).2 ≤ max_revisions := by
    intro n
    induction n with
    | zero =>
      intro plan rc hn h
      rw [validate_costs]
      split
      · rename_i hg; exact absurd hg.2 (by omega)
      · exact h
    | succ n ih =>
      intro plan rc hn h
      rw [validate_costs]
      split
      · rename_i hg; exact ih _ _ (by omega) hg.2
      · exact h
  exact H (max_revisions - rc) plan rc le_rfl hrc

theorem validate_costs_at_cap (validate : ℕ → ExecutionPlan → AgentDecision)
    (translate : ℕ → Option String → ExecutionPlan) (max_revisions : ℕ)
    (plan : ExecutionPlan) (rc : ℕ) (h : max_revisions ≤ rc) :
    validate_costs validate translate max_revisions plan rc = (plan, rc) := by
  rw [validate_costs]
  exact dif_neg (fun hc => absurd hc.2 (by omega))

theorem validate_costs_step (validate : ℕ → ExecutionPlan → AgentDecision)
    (translate : ℕ → Option String → ExecutionPlan) (max_revisions : ℕ)
    (plan : ExecutionPlan) (rc : ℕ)
    (h1 : (validate rc plan).requires_revision = true) (h2 : rc < max_revisions) :
    validate_costs validate translate max_revisions plan rc =
      validate_costs validate translate max_revisions
        (translate rc (validate rc plan).feedback) (rc + 1) := by
  conv_lhs => rw [validate_costs]
  exact dif_pos ⟨h1, h2⟩

theorem validate_costs_always (validate : ℕ → ExecutionPlan → AgentDecision)
    (translate : ℕ → Option String → ExecutionPlan) (max_revisions : ℕ)
    (hv : ∀ i p, (validate i p).requires_revision = true)
    (plan : ExecutionPlan) (rc : ℕ) (hrc : rc ≤ max_revisions) :
    (validate_costs validate translate max_revisions plan rc).2 = max_revisions := by
  have H : ∀ n plan rc, max_revisions - rc ≤ n → rc ≤ max_revisions →
      (validate_costs validate translate max_revisions plan rc).2 = max_revisions := by
    intro n
    induction n with
    | zero =>
      intro plan rc hn h
      rw [validate_costs]
      split
      · rename_i hg; exact absurd hg.2 (by omega)
      · show rc = max_revisions
        have := hv rc plan
        omega
    | succ n ih =>
      intro plan rc hn h
      rw [validate_costs]
      split
      · rename_i hg; exact ih _ _ (by omega) hg.2
      · rename_i hg
        have h3 : ¬ rc < max_revisions := fun hlt => hg ⟨hv rc plan, hlt⟩
        show rc = max_revisions
        omega
  exact H (max_revisions - rc) plan rc le_rfl hrc

theorem review_proposal_count_mono (review : ℕ → String → AgentDecision)
    (write : ℕ → Option String → String) (max_revisions : ℕ)
    (text : String) (rc : ℕ) :
    rc ≤ (review_proposal review write max_revisions text rc).2 := by
  have H : ∀ n text rc, max_revisions - rc ≤ n →
      rc ≤ (review_proposal review write max_revisions text rc).2 := by
    intro n
    induction n with
    | zero =>
      intro text rc hn
      rw [review_proposal]
      split
      · rename_i h; exact absurd h.2 (by omega)
      · exact le_rfl
    | succ n ih =>
      intro text rc hn
      rw [review_proposal]
      split
      · exact le_trans (Nat.le_succ rc) (ih _ _ (by omega))
      · exact le_rfl
  exact H (max_revisions - rc) text rc le_rfl

theorem review_proposal_count_le (review : ℕ → String → AgentDecision)
    (write : ℕ → Option String → String) (max_revisions : ℕ)
    (text : String) (rc : ℕ) (hrc : rc ≤ max_revisions) :
    (review_proposal review write max_revisions text rc).2 ≤ max_revisions := by
  have H : ∀ n text rc, max_revisions - rc ≤ n → rc ≤ max_revisions →
      (review_proposal review write max_revisions text rc).2 ≤ max_revisions := by
    intro n
    induction n with
    | zero =>
      intro text rc hn h
      rw [review_proposal]
      split
      · rename_i hg; exact absurd hg.2 (by omega)
      · exact h
    | succ n ih =>
      intro text rc hn h
      rw [review_proposal]
      split
      · rename_i hg; exact ih _ _ (by omega) hg.2
      · exact h
  exact H (max_revisions - rc) text rc le_rfl hrc

theorem review_proposal_at_cap (review : ℕ → String → AgentDecision)
    (write : ℕ → Option String → String) (max_revisions : ℕ)
    (text : String) (rc : ℕ) (h : max_revisions ≤ rc) :
    review_proposal review write max_revisions text rc = (text, rc) := by
  rw [review_proposal]
  exact dif_neg (fun hc => absurd hc.2 (by omega))

theorem review_proposal_step (review : ℕ → String → AgentDecision)
    (write : ℕ → Option String → String) (max_revisions : ℕ)
    (text : String) (rc : ℕ)
    (h1 : (review rc text).requires_revision = true) (h2 : rc < max_revisions) :
    review_proposal review write max_revisions text rc =
      review_proposal review write max_revisions
        (write rc (review rc text).feedback) (rc + 1) := by
  conv_lhs => rw [review_proposal]
  exact dif_pos ⟨h1, h2⟩

end SimpleOrchestrator

namespace RichOrchestrator

theorem validate_returns_input_plan (validate : ℕ → ExecutionPlan → AgentDecision)
    (translate : ℕ → Option String → ExecutionPlan) (max_revisions : ℕ)
    (plan : ExecutionPlan) (rc : ℕ) :
    (validate_and_optimize_costs validate translate max_revisions plan rc).1 = plan := by
  have H : ∀ n plan rc, max_revisions - rc ≤ n →
      (validate_and_optimize_costs validate translate max_revisions plan rc).1 = plan := by
    intro n
    induction n with
    | zero =>
      intro plan rc hn
      rw [validate_and_optimize_costs]
      split
      · rename_i h; exact absurd h.2 (by omega)
      · rfl
    | succ n ih =>
      intro plan rc hn
      rw [validate_and_optimize_costs]
      split
      · exact ih _ _ (by omega)
      · rfl
  exact H (max_revisions - rc) plan rc le_rfl

theorem validate_step (validate : ℕ → ExecutionPlan → AgentDecision)
    (translate : ℕ → Option String → ExecutionPlan) (max_revisions : ℕ)
    (plan : ExecutionPlan) (rc : ℕ)
    (h1 : (validate rc plan).requires_revision = true) (h2 : rc < max_revisions) :
    validate_and_optimize_costs validate translate max_revisions plan rc =
      validate_and_optimize_costs validate translate max_revisions plan (rc + 1) := by
  conv_lhs => rw [validate_and_optimize_costs]
  exact dif_pos ⟨h1, h2⟩

theorem validate_at_cap (validate : ℕ → ExecutionPlan → AgentDecision)
    (translate : ℕ → Option String → ExecutionPlan) (max_revisions : ℕ)
    (plan : ExecutionPlan) (rc : ℕ) (h : max_revisions ≤ rc) :
    validate_and_optimize_costs validate translate max_revisions plan rc = (plan, rc) := by
  rw [validate_and_optimize_costs]
  exact dif_neg (fun hc => absurd hc.2 (by omega))

end RichOrchestrator

/-- C1: in a `SimpleProposalOrchestrator` run the revision counter starts at
0 (`generate_proposal_counts` enters phase 2 with counter 0, as `__init__`
sets `revision_count = 0`), is monotone, is incremented exactly once per
granted revision, is shared globally between the cost-validation and review
phases, never exceeds `max_revisions`, and the revision loops terminate after
at most `max_revisions` granted revisions — exactly `max_revisions` when every
agent call requests revision — with the cap-hit branch returning the current
artifact instead of failing. -/
theorem C1_revision_controller
    (validate : ℕ → ExecutionPlan → AgentDecision)
    (translate : ℕ → Option String → ExecutionPlan)
    (review : ℕ → String → AgentDecision)
    (write : ℕ → Option String → String)
    (max_revisions : ℕ) (initial_plan : ExecutionPlan)
    (write0 : ExecutionPlan → String) :
    (∀ plan rc, rc ≤
      (SimpleOrchestrator.validate_costs validate translate max_revisions plan rc).2) ∧
    (∀ text rc, rc ≤
      (SimpleOrchestrator.review_proposal review write max_revisions text rc).2) ∧
    (∀ plan rc, (validate rc plan).requires_revision = true → rc < max_revisions →
      SimpleOrchestrator.validate_costs validate translate max_revisions plan rc =
        SimpleOrchestrator.validate_costs validate translate max_revisions
          (translate rc (validate rc plan).feedback) (rc + 1)) ∧
    (∀ text rc, (review rc text).requires_revision = true → rc < max_revisions →
      SimpleOrchestrator.review_proposal review write max_revisions text rc =
        SimpleOrchestrator.review_proposal review write max_revisions
          (write rc (review rc text).feedback) (rc + 1)) ∧
    (∀ plan rc, max_revisions ≤ rc →
      SimpleOrchestrator.validate_costs validate translate max_revisions plan rc =
        (plan, rc)) ∧
    (∀ text rc, max_revisions ≤ rc →
      SimpleOrchestrator.review_proposal review write max_revisions text rc =
        (text, rc)) ∧
    (SimpleOrchestrator.generate_proposal_counts validate translate review write
      max_revisions initial_plan write0).2.2 ≤ max_revisions ∧
    ((∀ i p, (validate i p).requires_revision = true) →
      (SimpleOrchestrator.generate_proposal_counts validate translate review write
        max_revisions initial_plan write0).2.2 = max_revisions) := by
  refine ⟨fun plan rc => SimpleOrchestrator.validate_costs_count_mono _ _ _ _ _,
    fun text rc => SimpleOrchestrator.review_proposal_count_mono _ _ _ _ _,
    fun plan rc h1 h2 => SimpleOrchestrator.validate_costs_step _ _ _ _ _ h1 h2,
    fun text rc h1 h2 => SimpleOrchestrator.review_proposal_step _ _ _ _ _ h1 h2,
    fun plan rc h => SimpleOrchestrator.validate_costs_at_cap _ _ _ _ _ h,
    fun text rc h => SimpleOrchestrator.review_proposal_at_cap _ _ _ _ _ h,
    ?_, ?_⟩
  · simp only [SimpleOrchestrator.generate_proposal_counts]
    exact SimpleOrchestrator.review_proposal_count_le _ _ _ _ _
      (SimpleOrchestrator.validate_costs_count_le _ _ _ _ _ (Nat.zero_le _))
  · intro hv
    simp only [SimpleOrchestrator.generate_proposal_counts]
    have h1 : (SimpleOrchestrator.validate_costs validate translate max_revisions
        initial_plan 0).2 = max_revisions :=
      SimpleOrchestrator.validate_costs_always _ _ _ hv _ _ (Nat.zero_le _)
    rw [SimpleOrchestrator.review_proposal_at_cap _ _ _ _ _ (le_of_eq h1.symm)]
    exact h1

/-- C1 witness: with a validator that always demands revision and
`max_revisions = 3`, a full run terminates with final revision count
exactly 3. -/
theorem C1_revision_controller_witness :
    (SimpleOrchestrator.generate_proposal_counts Fixtures.alwaysReviseP
      Fixtures.reviseToGood Fixtures.alwaysReviseT (fun _ _ => "draft") 3
      Fixtures.planGood (fun _ => "draft")).2.2 = 3 :=
  (C1_revision_controller Fixtures.alwaysReviseP Fixtures.reviseToGood
    Fixtures.alwaysReviseT (fun _ _ => "draft") 3 Fixtures.planGood
    (fun _ => "draft")).2.2.2.2.2.2.2 (fun _ _ => rfl)

/-- C4 evaluation: `ProposalOrchestrator._validate_and_optimize_costs`
(`core/orchestrator.py`) never installs the revised plan — it returns its
input plan unconditionally (first conjunct); at a concrete failing input
(validator flags the initial plan, translator returns an acceptable revised
plan, `max_revisions = 1`) it burns the revision on re-validating the old plan
and returns it, while `SimpleProposalOrchestrator._validate_costs` returns the
revised plan as the claim describes. -/
theorem C4_code_evaluation :
    (∀ validate translate max_revisions plan rc,
      (RichOrchestrator.validate_and_optimize_costs validate translate
        max_revisions plan rc).1 = plan) ∧
    RichOrchestrator.validate_and_optimize_costs Fixtures.rejectFlagged
      Fixtures.reviseToGood 1 Fixtures.planFlagged 0 = (Fixtures.planFlagged, 1) ∧
    SimpleOrchestrator.validate_costs Fixtures.rejectFlagged
      Fixtures.reviseToGood 1 Fixtures.planFlagged 0 = (Fixtures.planGood, 1) ∧
    Fixtures.planFlagged ≠ Fixtures.planGood ∧
    (Fixtures.rejectFlagged 0 Fixtures.planFlagged).requires_revision = true ∧
    (Fixtures.rejectFlagged 1 Fixtures.planGood).requires_revision = false := by
  refine ⟨fun v t m plan rc => RichOrchestrator.validate_returns_input_plan v t m plan rc,
    ?_, ?_, ?_, by decide, by decide⟩
  · rw [RichOrchestrator.validate_step _ _ _ _ _ (by decide) (by decide)]
    exact RichOrchestrator.validate_at_cap _ _ _ _ _ le_rfl
  · rw [SimpleOrchestrator.validate_costs_step _ _ _ _ _ (by decide) (by decide)]
    exact SimpleOrchestrator.validate_costs_at_cap _ _ _ _ _ le_rfl
  · intro h
    exact absurd (congrArg ExecutionPlan.notes h) (by decide)

/-- C2: after `ExecutionPlan.calculate_totals`, `total_hours` is the sum of
task hours, `total_cost` is the sum of `hours × rate` over tasks,
`mandatory_cost` is the sum of the costs of the mandatory-priority tasks, and
`total_cost = mandatory_cost + optional_cost` holds exactly, `optional_cost`
being defined as the difference and never summed independently. -/
theorem C2_calculate_totals (p : ExecutionPlan) :
    (p.calculate_totals).total_hours = (p.tasks.map (fun t => t.hours)).sum ∧
    (p.calculate_totals).total_cost = (p.tasks.map (fun t => t.hours * t.rate)).sum ∧
    (p.calculate_totals).mandatory_cost =
      ((p.tasks.filter (fun t => t.priority = Priority.mandatory)).map
        (fun t => t.hours * t.rate)).sum ∧
    (p.calculate_totals).optional_cost =
      (p.calculate_totals).total_cost - (p.calculate_totals).mandatory_cost ∧
    (p.calculate_totals).total_cost =
      (p.calculate_totals).mandatory_cost + (p.calculate_totals).optional_cost := by
  unfold ExecutionPlan.calculate_totals TaskPlan.cost
  refine ⟨rfl, rfl, rfl, rfl, ?_⟩
  ring

/-- C3 counterexample.  With `max_budget = 1000` and `error_margin = 0.5` a
plan of cost 1400 is over budget by 40% of `max_budget` (strictly more than
30%) yet `requires_revision` is `false`, because the 30%-threshold is only
tested when the plan already exceeds `max_budget × (1 + error_margin)`.  And
with `max_budget` unset the validator does not return a vacuous within-budget
response at all: it raises `TypeError` (from `max_budget * 0.9` in the
`risk_level` entry). -/
theorem C3_counterexample :
    (Costing.validate_core none (Fixtures.planOfCost 1400) 1000
      (1 / 2)).requires_revision = false ∧
    (3 : ℚ) / 10 < ((1400 : ℚ) - 1000) / 1000 ∧
    Costing.validate_and_optimize_costs none (Fixtures.planOfCost 500) none (1 / 10) =
      Except.error "TypeError: unsupported operand type(s) for *: NoneType and float" := by
  refine ⟨?_, by norm_num, rfl⟩
  simp only [Costing.validate_core, Fixtures.planOfCost]
  norm_num

/-- C3 amended: for a set, nonzero `max_budget = b` the plan is within budget
iff `total_cost ≤ b × (1 + error_margin)`; `requires_revision = true` iff the
plan is not within budget AND the overage exceeds 30% of `b` (for
`error_margin ≤ 0.3` this coincides with "over budget by more than 30%");
`success` mirrors `within_budget`.  With `max_budget` unset the call raises a
`TypeError` instead of being vacuously within budget.  The documented
boundary examples hold: at `b = 1000`, `error_margin = 0.1`, cost 1099 is
within budget and 1101 is not; 30% over (1300) does not trigger revision and
31% over (1310) does. -/
theorem C3_budget_rule_amended :
    (∀ la plan b m, b ≠ (0 : ℚ) →
      (((Costing.validate_core la plan b m).data.within_budget = true) ↔
        plan.total_cost ≤ b * (1 + m)) ∧
      (((Costing.validate_core la plan b m).requires_revision = true) ↔
        (b * (1 + m) < plan.total_cost ∧ 3 / 10 < (plan.total_cost - b) / b)) ∧
      (Costing.validate_core la plan b m).success =
        (Costing.validate_core la plan b m).data.within_budget) ∧
    (∀ la plan m, Costing.validate_and_optimize_costs la plan none m =
      Except.error "TypeError: unsupported operand type(s) for *: NoneType and float") ∧
    (Costing.validate_core none (Fixtures.planOfCost 1099) 1000
      (1 / 10)).data.within_budget = true ∧
    (Costing.validate_core none (Fixtures.planOfCost 1101) 1000
      (1 / 10)).data.within_budget = false ∧
    (Costing.validate_core none (Fixtures.planOfCost 1300) 1000
      (1 / 10)).requires_revision = false ∧
    (Costing.validate_core none (Fixtures.planOfCost 1310) 1000
      (1 / 10)).requires_revision = true := by
  refine ⟨?_, fun la plan m => rfl, ?_, ?_, ?_, ?_⟩
  · intro la plan b m hb
    refine ⟨?_, ?_, rfl⟩
    · simp [Costing.validate_core, hb]
    · simp [Costing.validate_core, hb, not_le]
  all_goals simp only [Costing.validate_core, Fixtures.planOfCost]
  all_goals norm_num

/-- C3 witness: the amended budget rule applied at cost 500, budget 1000,
margin 0.1. -/
theorem C3_budget_rule_amended_witness :
    (Costing.validate_core none (Fixtures.planOfCost 500) 1000
      (1 / 10)).data.within_budget = true :=
  (C3_budget_rule_amended.1 none (Fixtures.planOfCost 500) 1000 (1 / 10)
    (by norm_num)).1.mpr (by norm_num [Fixtures.planOfCost])

/-- C10 evaluation: with `max_budget = 0` (falsy) the plan is judged within
budget regardless of `total_cost`, `requires_revision` is `false`,
`budget_utilization` is 0 and no division is reached, exactly as the
truthiness test suggests — but `max_budget = None` does NOT behave the same:
the response construction raises `TypeError` on `None * 0.9` in the
`risk_level` entry, so the zero-budget and unset-budget behaviors diverge. -/
theorem C10_truthiness_evaluation :
    (∀ la plan m,
      (Costing.validate_core la plan 0 m).data.within_budget = true ∧
      (Costing.validate_core la plan 0 m).requires_revision = false ∧
      (Costing.validate_core la plan 0 m).data.budget_utilization = 0 ∧
      (Costing.validate_core la plan 0 m).success = true ∧
      Costing.validate_and_optimize_costs la plan (some 0) m =
        Except.ok (Costing.validate_core la plan 0 m)) ∧
    (∀ la plan m, Costing.validate_and_optimize_costs la plan none m =
      Except.error "TypeError: unsupported operand type(s) for *: NoneType and float") := by
  refine ⟨fun la plan m => ⟨?_, ?_, ?_, ?_, rfl⟩, fun la plan m => rfl⟩
  all_goals simp [Costing.validate_core]

/-- C5 counterexample: on a response with no brace pair the translation
facade returns the canned fallback plan without raising — but its five tasks
are NOT all mandatory: the fifth (deployment) task carries `optional`
priority. -/
theorem C5_counterexample :
    (Translator.create_execution_plan (fun _ => none)
      "The model replied in prose without any JSON object" 50).tasks.map
        TaskPlan.priority =
      [Priority.mandatory, Priority.mandatory, Priority.mandatory,
        Priority.mandatory, Priority.optional] ∧
    Priority.optional ≠ Priority.mandatory := by
  exact ⟨rfl, by decide⟩

/-- C5 amended: for every response string lacking a `{` or lacking a `}` (and
in general whenever parsing or plan-building fails), `create_execution_plan`
raises nothing and returns the canned five-task fallback plan, whose tasks
all use the profile's hourly rate and carry priorities
`[mandatory, mandatory, mandatory, mandatory, optional]`. -/
theorem C5_fallback_amended (loads : String → Option Translator.PlanData)
    (response : String) (hourly_rate : ℚ)
    (h : PyStr.findChar '{' response.data = none ∨
      PyStr.rfindChar '}' response.data = none) :
    Translator.create_execution_plan loads response hourly_rate =
      Translator.create_fallback_plan hourly_rate ∧
    (Translator.create_fallback_plan hourly_rate).tasks.length = 5 ∧
    (∀ t ∈ (Translator.create_fallback_plan hourly_rate).tasks,
      t.rate = hourly_rate) ∧
    (Translator.create_fallback_plan hourly_rate).tasks.map TaskPlan.priority =
      [Priority.mandatory, Priority.mandatory, Priority.mandatory,
        Priority.mandatory, Priority.optional] := by
  have hp : Translator.parse_json_response loads response = none := by
    unfold Translator.parse_json_response
    rcases h with h | h
    · rw [h]
    · rw [h]
      cases PyStr.findChar '{' response.data <;> rfl
  refine ⟨?_, rfl, ?_, rfl⟩
  · unfold Translator.create_execution_plan
    rw [hp]
    rfl
  · intro t ht
    simp only [Translator.create_fallback_plan, ExecutionPlan.calculate_totals,
      List.mem_cons, List.not_mem_nil, or_false] at ht
    rcases ht with rfl | rfl | rfl | rfl | rfl <;> rfl

/-- C5 witness: the amended fallback behavior at a brace-free response and
rate 50. -/
theorem C5_fallback_amended_witness :
    Translator.create_execution_plan (fun _ => none) "no json here" 50 =
      Translator.create_fallback_plan 50 :=
  (C5_fallback_amended (fun _ => none) "no json here" 50 (Or.inl (by decide))).1

/-- Normalization always lands in the canonical three-value set. -/
theorem Translator.normalize_priority_canonical (s : String) :
    Translator.normalize_priority s = "mandatory" ∨
      Translator.normalize_priority s = "optional" ∨
      Translator.normalize_priority s = "nice_to_have" := by
  unfold Translator.normalize_priority
  split
  · assumption
  · left; rfl

/-- C6 counterexample: `"Optional"` lies outside the three canonical values
(string comparison is case-sensitive) yet normalizes to `"optional"`, not to
`"mandatory"`. -/
theorem C6_counterexample :
    Translator.normalize_priority "Optional" = "optional" ∧
    "Optional" ≠ "mandatory" ∧ "Optional" ≠ "optional" ∧
    "Optional" ≠ "nice_to_have" ∧ ("optional" : String) ≠ "mandatory" := by
  refine ⟨by decide, by decide, by decide, by decide, by decide⟩

/-- C6 amended: priority normalization is idempotent, and every string whose
lower-cased hyphen-to-underscore form lies outside the three canonical values
maps to `"mandatory"`. -/
theorem C6_normalization_amended :
    (∀ s, Translator.normalize_priority (Translator.normalize_priority s) =
      Translator.normalize_priority s) ∧
    (∀ s, Translator.lower_und s ≠ "mandatory" →
      Translator.lower_und s ≠ "optional" →
      Translator.lower_und s ≠ "nice_to_have" →
      Translator.normalize_priority s = "mandatory") := by
  constructor
  · intro s
    rcases Translator.normalize_priority_canonical s with h | h | h <;> rw [h] <;> decide
  · intro s h1 h2 h3
    simp [Translator.normalize_priority, h1, h2, h3]

/-- C6 witness: the amended normalization rule applied to the non-canonical
string `"urgent"` and the idempotence instance at `"Nice-To-Have"`. -/
theorem C6_normalization_amended_witness :
    Translator.normalize_priority "urgent" = "mandatory" :=
  C6_normalization_amended.2 "urgent" (by decide) (by decide) (by decide)

/-- The score-success branch of `_parse_review_response`, in terms of the
extracted score. -/
theorem Reviewer.parse_fields_of_score (r : String) (s : ℚ)
    (hs : Reviewer.score_of r = some s) :
    (Reviewer.parse_review_response r).success = decide (s ≥ 7) ∧
    (Reviewer.parse_review_response r).requires_revision =
      (decide (s < 7) || !(Reviewer.would_hire_of r s)) ∧
    ((Reviewer.parse_review_response r).data.map
      (fun d => d.overall_score)) = some s ∧
    ((Reviewer.parse_review_response r).data.map
      (fun d => d.estimated_win_probability)) = some (min (s * 10) 90) := by
  unfold Reviewer.parse_review_response
  rw [hs]
  exact ⟨rfl, rfl, rfl, rfl⟩

/-- The score-failure branch of `_parse_review_response`. -/
theorem Reviewer.parse_of_score_none (r : String)
    (hs : Reviewer.score_of r = none) :
    Reviewer.parse_review_response r = Reviewer.default_review_response := by
  unfold Reviewer.parse_review_response
  rw [hs]

/-- The review `"SCORE: 8/10\nWOULD_HIRE: Yes"` parses to score 8. -/
theorem Reviewer.score_of_example :
    Reviewer.score_of "SCORE: 8/10\nWOULD_HIRE: Yes" = some 8 := by
  unfold Reviewer.score_of
  rw [if_neg (by decide)]
  rw [show (PyStr.splitOnChar '/'
    (PyStr.strip ((PyStr.splitOnChar ':'
      (Reviewer.score_line "SCORE: 8/10\nWOULD_HIRE: Yes")).getD 1 []))).getD 0 [] = ['8']
    from by decide]
  rw [PyStr.pyFloat, show PyStr.decParse ['8'] = some (false, 8, 0, 0) from by decide]
  norm_num

/-- The review `"SCORE: 8/10\nWOULD_HIRE: Yes"` carries a positive
hire decision. -/
theorem Reviewer.would_hire_example :
    Reviewer.would_hire_of "SCORE: 8/10\nWOULD_HIRE: Yes" 8 = true := by
  unfold Reviewer.would_hire_of
  rw [if_pos (by decide)]
  decide

/-- C7 counterexample: on `"SCORE: abc/10"` the `SCORE:` line is present but
its numerator does not parse as a float, so the parser lands in the `except`
branch and reports score 7.5 — not the claimed default 7.0 (which only
applies when the line is absent). -/
theorem C7_counterexample :
    Reviewer.parse_review_response "SCORE: abc/10" =
      Reviewer.default_review_response ∧
    ((Reviewer.parse_review_response "SCORE: abc/10").data.map
      (fun d => d.overall_score)) = some (15 / 2) ∧
    (15 / 2 : ℚ) ≠ 7 ∧
    (Reviewer.score_line "SCORE: abc/10").isEmpty = false := by
  exact ⟨rfl, rfl, by norm_num, by decide⟩

/-- C7 amended: when no `SCORE:` line is present the score defaults to 7.0;
when the `SCORE:` line is present and its `X/10` numerator parses as a float
`s`, the parsed review's score is `s`, the response is accepted iff `s ≥ 7`,
and revision is requested iff `s < 7` or the extracted hire-decision is
negative (the hire-decision defaulting to `s ≥ 7` when no `WOULD_HIRE:` line
exists); when the numerator fails to parse, the parser returns the fallback
response with score 7.5, `success = true` and no revision. -/
theorem C7_review_parse_amended (response : String) :
    ((Reviewer.score_line response).isEmpty = true →
      Reviewer.score_of response = some 7) ∧
    (∀ s, Reviewer.score_of response = some s →
      (Reviewer.parse_review_response response).success = decide (s ≥ 7) ∧
      (Reviewer.parse_review_response response).requires_revision =
        (decide (s < 7) || !(Reviewer.would_hire_of response s)) ∧
      ((Reviewer.parse_review_response response).data.map
        (fun d => d.overall_score)) = some s ∧
      ((Reviewer.would_hire_line response).isEmpty = true →
        Reviewer.would_hire_of response s = decide (s ≥ 7))) ∧
    (Reviewer.score_of response = none →
      Reviewer.parse_review_response response = Reviewer.default_review_response ∧
      (Reviewer.default_review_response.data.map
        (fun d => d.overall_score)) = some (15 / 2) ∧
      Reviewer.default_review_response.success = true ∧
      Reviewer.default_review_response.requires_revision = false) := by
  refine ⟨?_, ?_, ?_⟩
  · intro h
    unfold Reviewer.score_of
    rw [if_pos h]
  · intro s hs
    obtain ⟨h1, h2, h3, _⟩ := Reviewer.parse_fields_of_score response s hs
    refine ⟨h1, h2, h3, ?_⟩
    intro h
    simp [Reviewer.would_hire_of, h]
  · intro hs
    exact ⟨Reviewer.parse_of_score_none response hs, rfl, rfl, rfl⟩

/-- C7 witness: the amended parse rule applied to `"SCORE: 8/10"` with a
positive hire line gives an accepted response. -/
theorem C7_review_parse_amended_witness :
    (Reviewer.parse_review_response "SCORE: 8/10\nWOULD_HIRE: Yes").success =
      true := by
  have h := (C7_review_parse_amended "SCORE: 8/10\nWOULD_HIRE: Yes").2.1 8
    Reviewer.score_of_example
  rw [h.1]
  simp only [ge_iff_le, decide_eq_true_eq]
  norm_num

/-- C8: final assembly divides the review's overall score by 10 for
`quality_score` and its win-probability percentage by 100 for
`estimated_win_probability`; on the concrete review `"SCORE: 8/10"` with
`WOULD_HIRE: Yes` the output has `quality_score = 0.8` and no revision is
triggered. -/
theorem C8_final_assembly :
    (∀ text plan rc succ d fb rr na,
      (SimpleOrchestrator.create_final_output text plan
        ⟨succ, some d, fb, rr, na⟩ rc).quality_score = d.overall_score / 10 ∧
      (SimpleOrchestrator.create_final_output text plan
        ⟨succ, some d, fb, rr, na⟩ rc).estimated_win_probability =
        d.estimated_win_probability / 100) ∧
    (∀ text plan rc,
      (SimpleOrchestrator.create_final_output text plan
        (Reviewer.parse_review_response "SCORE: 8/10\nWOULD_HIRE: Yes")
        rc).quality_score = 4 / 5 ∧
      (Reviewer.parse_review_response
        "SCORE: 8/10\nWOULD_HIRE: Yes").requires_revision = false) := by
  obtain ⟨-, h2, h3, -⟩ := Reviewer.parse_fields_of_score
    "SCORE: 8/10\nWOULD_HIRE: Yes" 8 Reviewer.score_of_example
  refine ⟨fun text plan rc succ d fb rr na => ⟨rfl, rfl⟩, fun text plan rc => ⟨?_, ?_⟩⟩
  · simp only [SimpleOrchestrator.create_final_output]
    rw [h3]
    norm_num
  · rw [h2, Reviewer.would_hire_example]
    have h : ¬((8 : ℚ) < 7) := by norm_num
    simp [h]

/-- C9: the parsed review's estimated win probability always equals
`min(score × 10, 90)` and so never exceeds 90 percent; consequently the
assembled output's `estimated_win_probability` is at most 0.9 and never
reaches 1.0, even for a perfect 10/10 review. -/
theorem C9_win_probability_cap :
    (∀ response,
      (((Reviewer.parse_review_response response).data.map
        (fun d => d.estimated_win_probability)).getD 75) =
        min ((((Reviewer.parse_review_response response).data.map
          (fun d => d.overall_score)).getD (15 / 2)) * 10) 90 ∧
      (((Reviewer.parse_review_response response).data.map
        (fun d => d.estimated_win_probability)).getD 75) ≤ 90) ∧
    (∀ text plan rc response,
      (SimpleOrchestrator.create_final_output text plan
        (Reviewer.parse_review_response response) rc).estimated_win_probability ≤
        9 / 10 ∧
      (SimpleOrchestrator.create_final_output text plan
        (Reviewer.parse_review_response response) rc).estimated_win_probability <
        1) := by
  have key : ∀ response,
      (((Reviewer.parse_review_response response).data.map
        (fun d => d.estimated_win_probability)).getD 75) =
        min ((((Reviewer.parse_review_response response).data.map
          (fun d => d.overall_score)).getD (15 / 2)) * 10) 90 := by
    intro response
    cases hs : Reviewer.score_of response with
    | none =>
      rw [Reviewer.parse_of_score_none response hs]
      norm_num [Reviewer.default_review_response]
    | some s =>
      obtain ⟨-, -, h3, h4⟩ := Reviewer.parse_fields_of_score response s hs
      rw [h3, h4]
      rfl
  have h90 : ∀ response,
      (((Reviewer.parse_review_response response).data.map
        (fun d => d.estimated_win_probability)).getD 75) ≤ 90 := by
    intro response
    rw [key response]
    exact min_le_right _ _
  refine ⟨fun response => ⟨key response, h90 response⟩, fun text plan rc response => ?_⟩
  have h := h90 response
  constructor
  · simp only [SimpleOrchestrator.create_final_output]
    linarith
  · simp only [SimpleOrchestrator.create_final_output]
    linarith

end ProposalBuilder
